import Mathlib

/-!
Shallow embedding of `pkg/provisioners/channel_util.go` from
jonjohnsonjr/eventing: the reconciliation helpers that keep the
owned child resources (a k8s Service and an istio VirtualService) in sync
with their computed desired state, persist the finalizer list and
status of the Channel, and the pure naming helpers.

The external store (controller-runtime client) is modelled as an
instrumented single-key fake store with injectable failures, recording
every Get/Create/Update call, so that call-count and call-argument
properties of the reconcilers can be stated and proved.
-/

namespace Provisioners

/-- k8s `types.NamespacedName`, the key passed to `client.Get`. -/
structure NamespacedName where
  ns : String
  name : String
deriving DecidableEq, Repr

/-- k8s `metav1.OwnerReference`, as produced by `metav1.NewControllerRef`. -/
structure OwnerReference where
  apiVersion : String
  kind : String
  name : String
  controller : Bool
  blockOwnerDeletion : Bool
deriving DecidableEq, Repr

/-- k8s `metav1.ObjectMeta`, restricted to the fields this core reads or
writes: name, namespace, labels, owner references and finalizers. -/
structure ObjectMeta where
  name : String
  ns : String
  labels : List (String × String)
  ownerReferences : List OwnerReference
  finalizers : List String
deriving DecidableEq, Repr

/-- Embeds `corev1.ServicePort`, restricted to the fields the desired state sets
(`Name`, `Port`) plus `Protocol`, a live-only field the store may default,
so that derivative equality is non-trivial. Ports are `Int` (Go `int32`;
no arithmetic is performed on them). -/
structure ServicePort where
  name : String
  protocol : String
  port : Int
deriving DecidableEq, Repr

/-- Embeds `corev1.ServiceSpec`, restricted to `Ports` and the cluster-assigned
`ClusterIP`. -/
structure ServiceSpec where
  ports : List ServicePort
  clusterIP : String
deriving DecidableEq, Repr

/-- Embeds `corev1.Service`. -/
structure Service where
  metadata : ObjectMeta
  spec : ServiceSpec
deriving DecidableEq, Repr

/-- Embeds `istiov1alpha3.PortSelector`. -/
structure PortSelector where
  number : Int
deriving DecidableEq, Repr

/-- Embeds `istiov1alpha3.Destination`. -/
structure Destination where
  host : String
  port : PortSelector
deriving DecidableEq, Repr

/-- Embeds `istiov1alpha3.DestinationWeight`. -/
structure DestinationWeight where
  destination : Destination
  weight : Int
deriving DecidableEq, Repr

/-- Embeds `istiov1alpha3.HTTPRewrite`. -/
structure HTTPRewrite where
  authority : String
deriving DecidableEq, Repr

/-- Embeds `istiov1alpha3.HTTPRoute`; `Rewrite` is a pointer in Go, hence
`Option`. -/
structure HTTPRoute where
  rewrite : Option HTTPRewrite
  route : List DestinationWeight
deriving DecidableEq, Repr

/-- Embeds `istiov1alpha3.VirtualServiceSpec`, restricted to the fields the
desired state sets. -/
structure VirtualServiceSpec where
  hosts : List String
  http : List HTTPRoute
deriving DecidableEq, Repr

/-- Embeds `istiov1alpha3.VirtualService`. -/
structure VirtualService where
  metadata : ObjectMeta
  spec : VirtualServiceSpec
deriving DecidableEq, Repr

/-- The provisioner reference of the Channel (`corev1.ObjectReference`,
restricted to the `Name` field this core reads). -/
structure ProvisionerRef where
  name : String
deriving DecidableEq, Repr

/-- Embeds `eventingv1alpha1.ChannelSpec`, restricted to the provisioner
reference. -/
structure ChannelSpec where
  provisioner : ProvisionerRef
deriving DecidableEq, Repr

/-- Embeds `eventingv1alpha1.Channel`. The status block is opaque to this core
beyond deep-equality comparison, so it is a type parameter. -/
structure Channel (St : Type) where
  metadata : ObjectMeta
  spec : ChannelSpec
  status : St
deriving DecidableEq, Repr

/-- Error taxonomy of the store client: `notFound` is the signal
`k8serrors.IsNotFound` recognises; every other value is an opaque
non-not-found error (conflict / already-exists / transport), carried
verbatim. -/
inductive StoreErr where
  | notFound
  | alreadyExists
  | conflict
  | other (code : Nat)
deriving DecidableEq, Repr

/-- Go `const PortName = "http"`. -/
def PortName : String := "http"

/-- Go `const PortNumber = 80`. -/
def PortNumber : Int := 80

/-- Go `func ChannelVirtualServiceName`: `fmt.Sprintf("%s-channel", channelName)`. -/
def ChannelVirtualServiceName (channelName : String) : String :=
  channelName ++ "-channel"

/-- Go `func ChannelServiceName`: `fmt.Sprintf("%s-channel", channelName)`. -/
def ChannelServiceName (channelName : String) : String :=
  channelName ++ "-channel"

/-- Go `func ChannelHostName`: `fmt.Sprintf("%s.%s.channels.cluster.local", channelName, namespace)`. -/
def ChannelHostName (channelName nspace : String) : String :=
  channelName ++ "." ++ nspace ++ ".channels.cluster.local"

/-- Modelled from the spec: `ChannelDispatcherServiceName`, the name of the
dispatcher service of a provisioner, is repository code not under `src/`. The
source comment on `CreateVirtualService` records that the dispatcher
naming scheme is `*-dispatcher`, keyed by the provisioner name only. -/
def ChannelDispatcherServiceName (provisionerName : String) : String :=
  provisionerName ++ "-dispatcher"

/-- Modelled from the spec: `controller.ServiceHostName`, repository code
not under `src/`, produces the stable in-cluster DNS address of a service
within a namespace (spec section 6, "Dispatcher host resolver"). -/
def ServiceHostName (serviceName nspace : String) : String :=
  serviceName ++ "." ++ nspace ++ ".svc.cluster.local"

/-- Modelled from the spec: `system.Namespace`, repository code not under
`src/`, is the fixed serving namespace of the dispatch backends. -/
def systemNamespace : String := "knative-eventing"

/-- Lexicographic order on character lists: the order used by Go `sort.Strings` (bytewise comparison; identical to codepoint-wise comparison on the
ASCII names used throughout). -/
def charListLe : List Char → List Char → Bool
  | [], _ => true
  | _ :: _, [] => false
  | a :: as, b :: bs => if a < b then true else if b < a then false else charListLe as bs

/-- Go string order, compared on character lists. -/
def strLe (a b : String) : Bool := charListLe a.data b.data

/-- Insert a string into a sorted list, keeping it sorted. -/
def insertSorted (x : String) : List String → List String
  | [] => [x]
  | y :: ys => if strLe x y then x :: y :: ys else y :: insertSorted x ys

/-- Models `sets.NewString(l...).List()`: the sorted, duplicate-free list of the
members of the string set built from `l` (Go `sets.String.List` returns
the members in sorted order). -/
def setsStringList (l : List String) : List String :=
  l.dedup.foldr insertSorted []

/-- Go `type AddFinalizerResult bool`. -/
abbrev AddFinalizerResult := Bool

/-- Go `FinalizerAlreadyPresent AddFinalizerResult = false`. -/
def FinalizerAlreadyPresent : AddFinalizerResult := false

/-- Go `FinalizerAdded AddFinalizerResult = true`. -/
def FinalizerAdded : AddFinalizerResult := true

/-- Go `func AddFinalizer`: build the string set of the finalizers of the channel; if the name is already a member report `FinalizerAlreadyPresent`
and leave the channel untouched; otherwise insert it and write back the
sorted member list of the set. The Go function mutates `c`; here it returns the
updated channel alongside the result. -/
def AddFinalizer {St : Type} (c : Channel St) (finalizerName : String) :
    Channel St × AddFinalizerResult :=
  if finalizerName ∈ c.metadata.finalizers then
    (c, FinalizerAlreadyPresent)
  else
    ({ c with metadata :=
        { c.metadata with
          finalizers := setsStringList (c.metadata.finalizers ++ [finalizerName]) } },
     FinalizerAdded)

/-- Go `func RemoveFinalizer`: build the string set, delete the name, write
back the sorted member list of the set (so the list is re-normalized even when
the name was absent). -/
def RemoveFinalizer {St : Type} (c : Channel St) (finalizerName : String) :
    Channel St :=
  { c with metadata :=
      { c.metadata with
        finalizers :=
          setsStringList (c.metadata.finalizers.filter (fun s => s != finalizerName)) } }

/-- The controller owner reference `metav1.NewControllerRef(c, gvk)` that
both builders attach. The group/version strings of
`eventingv1alpha1.SchemeGroupVersion` are repository code not under
`src/`; their exact values are irrelevant to every claim, only that they
are fixed. -/
def channelControllerRef {St : Type} (c : Channel St) : OwnerReference :=
  { apiVersion := "eventing.knative.dev/v1alpha1"
    kind := "Channel"
    name := c.metadata.name
    controller := true
    blockOwnerDeletion := true }

/-- Go `func newK8sService`: the desired k8s Service for a Channel —
deterministic name/namespace, labels `{channel, provisioner}`, a controller
owner reference, and a single port named `PortName` with port
`PortNumber`. No ClusterIP and no protocol are set (zero values). -/
def newK8sService {St : Type} (c : Channel St) : Service :=
  { metadata :=
      { name := ChannelServiceName c.metadata.name
        ns := c.metadata.ns
        labels := [("channel", c.metadata.name), ("provisioner", c.spec.provisioner.name)]
        ownerReferences := [channelControllerRef c]
        finalizers := [] }
    spec :=
      { ports := [{ name := PortName, protocol := "", port := PortNumber }]
        clusterIP := "" } }

/-- Go `func newVirtualService`: the desired VirtualService for a Channel —
hosts are the service host of the k8s Service owned by the channel and the stable
channel host; one HTTP route that rewrites the authority to the channel
host and forwards to the dispatcher host of the provisioner at `PortNumber`. -/
def newVirtualService {St : Type} (channel : Channel St) : VirtualService :=
  let destinationHost :=
    ServiceHostName (ChannelDispatcherServiceName channel.spec.provisioner.name)
      systemNamespace
  { metadata :=
      { name := ChannelVirtualServiceName channel.metadata.name
        ns := channel.metadata.ns
        labels :=
          [("channel", channel.metadata.name),
           ("provisioner", channel.spec.provisioner.name)]
        ownerReferences := [channelControllerRef channel]
        finalizers := [] }
    spec :=
      { hosts :=
          [ServiceHostName (ChannelServiceName channel.metadata.name) channel.metadata.ns,
           ChannelHostName channel.metadata.name channel.metadata.ns]
        http :=
          [{ rewrite :=
               some { authority := ChannelHostName channel.metadata.name channel.metadata.ns }
             route :=
               [{ destination :=
                    { host := destinationHost, port := { number := PortNumber } }
                  weight := 0 }] }] } }

/-!
`equality.Semantic.DeepDerivative(desired, live)` from
k8s.io/apimachinery: like deep equality, except that any field of
`desired` holding its zero value (empty string, zero int, nil pointer,
nil/empty slice) is ignored; a non-empty slice requires equal length and
element-wise derivative equality. It is modelled per resource type below,
field for field over the embedded structures.
-/

/-- Derivative equality on `ServicePort`. -/
def portDerivative (d l : ServicePort) : Bool :=
  (d.name == "" || d.name == l.name) &&
  (d.protocol == "" || d.protocol == l.protocol) &&
  (d.port == 0 || d.port == l.port)

/-- Element-wise derivative equality of two port slices of equal length. -/
def portsDerivative : List ServicePort → List ServicePort → Bool
  | [], [] => true
  | d :: ds, l :: ls => portDerivative d l && portsDerivative ds ls
  | _, _ => false

/-- Derivative equality on `ServiceSpec` (the comparison
`createK8sService` performs). -/
def serviceSpecDerivative (d l : ServiceSpec) : Bool :=
  (d.ports.isEmpty || portsDerivative d.ports l.ports) &&
  (d.clusterIP == "" || d.clusterIP == l.clusterIP)

/-- Element-wise derivative equality of two host slices (empty desired
string ignored). -/
def hostsDerivative : List String → List String → Bool
  | [], [] => true
  | d :: ds, l :: ls => (d == "" || d == l) && hostsDerivative ds ls
  | _, _ => false

/-- Derivative equality on `Destination`. -/
def destinationDerivative (d l : Destination) : Bool :=
  (d.host == "" || d.host == l.host) &&
  (d.port.number == 0 || d.port.number == l.port.number)

/-- Element-wise derivative equality of two route slices. -/
def routeDerivative : List DestinationWeight → List DestinationWeight → Bool
  | [], [] => true
  | d :: ds, l :: ls =>
      destinationDerivative d.destination l.destination &&
      (d.weight == 0 || d.weight == l.weight) &&
      routeDerivative ds ls
  | _, _ => false

/-- Derivative equality on `HTTPRoute` (nil desired rewrite pointer
ignored; non-nil desired against nil live fails). -/
def httpRouteDerivative (d l : HTTPRoute) : Bool :=
  (match d.rewrite, l.rewrite with
   | none, _ => true
   | some _, none => false
   | some r, some lr => r.authority == "" || r.authority == lr.authority) &&
  (d.route.isEmpty || routeDerivative d.route l.route)

/-- Element-wise derivative equality of two HTTP route slices. -/
def httpDerivative : List HTTPRoute → List HTTPRoute → Bool
  | [], [] => true
  | d :: ds, l :: ls => httpRouteDerivative d l && httpDerivative ds ls
  | _, _ => false

/-- Derivative equality on `VirtualServiceSpec` (the comparison
`CreateVirtualService` performs). -/
def vsSpecDerivative (d l : VirtualServiceSpec) : Bool :=
  (d.hosts.isEmpty || hostsDerivative d.hosts l.hosts) &&
  (d.http.isEmpty || httpDerivative d.http l.http)

/-- Instrumented single-key fake of the store client, for the one key a
reconciler invocation addresses. `live` is the object currently persisted
at that key; `getErr`, `createErr` and `updateErr` inject a failure into
the corresponding call (modelling transport errors and races lost to
concurrent writers); `gets`, `creates` and `updates` record every call
made, in order, with its argument. -/
structure FakeStore (α : Type) where
  live : Option α
  getErr : Option StoreErr
  createErr : Option StoreErr
  updateErr : Option StoreErr
  gets : Nat
  creates : List α
  updates : List α
deriving Repr

/-- A fake store holding `live` at the key, with no injected failures and
empty call logs. -/
def FakeStore.ofLive {α : Type} (live : Option α) : FakeStore α :=
  { live := live, getErr := none, createErr := none, updateErr := none
    gets := 0, creates := [], updates := [] }

/-- Models `client.Get`: returns the injected failure if any, else the live
object, else the NotFound signal. -/
def FakeStore.get {α : Type} (s : FakeStore α) : Except StoreErr α × FakeStore α :=
  let s := { s with gets := s.gets + 1 }
  match s.getErr with
  | some e => (.error e, s)
  | none =>
    match s.live with
    | none => (.error .notFound, s)
    | some x => (.ok x, s)

/-- Models `client.Create`: returns the injected failure if any, fails with
`alreadyExists` if an object is already live at the key, else persists the
object. Every call is recorded. -/
def FakeStore.create {α : Type} (s : FakeStore α) (x : α) :
    Option StoreErr × FakeStore α :=
  let s := { s with creates := s.creates ++ [x] }
  match s.createErr with
  | some e => (some e, s)
  | none =>
    match s.live with
    | some _ => (some .alreadyExists, s)
    | none => (none, { s with live := some x })

/-- Models `client.Update`: returns the injected failure if any, fails with
`notFound` if nothing is live at the key, else replaces the live object.
Every call is recorded. -/
def FakeStore.update {α : Type} (s : FakeStore α) (x : α) :
    Option StoreErr × FakeStore α :=
  let s := { s with updates := s.updates ++ [x] }
  match s.updateErr with
  | some e => (some e, s)
  | none =>
    match s.live with
    | none => (some .notFound, s)
    | some _ => (none, { s with live := some x })

/-- Go `func createK8sService` (lower-case): fetch the live Service at
`svcKey`; on NotFound create the desired one and return it (or the create
error unmodified); on any other fetch error return it unmodified; otherwise
copy the live cluster-assigned ClusterIP onto the desired spec, and if the
desired spec is not derivative-equal to the live spec, overwrite the spec of the live
object and issue one Update. The Go pair `(*Service, error)` is an
`Except`: `.ok` is `(svc, nil)`, `.error` is `(nil, err)`. The fake store
models the single key `svcKey` addresses, so the key is not re-consulted
by the operations of the fake. -/
def createK8sService (s : FakeStore Service) (svcKey : NamespacedName)
    (svc : Service) : Except StoreErr Service × FakeStore Service :=
  let _ := svcKey
  let (res, s) := s.get
  match res with
  | .error .notFound =>
    let (e, s) := s.create svc
    match e with
    | some err => (.error err, s)
    | none => (.ok svc, s)
  | .error e => (.error e, s)
  | .ok current =>
    let svc := { svc with spec := { svc.spec with clusterIP := current.spec.clusterIP } }
    if serviceSpecDerivative svc.spec current.spec then
      (.ok current, s)
    else
      let current := { current with spec := svc.spec }
      let (e, s) := s.update current
      match e with
      | some err => (.error err, s)
      | none => (.ok current, s)

/-- Go `func CreateK8sService`: compute the key and desired Service for
the channel and delegate to `createK8sService`. -/
def CreateK8sService {St : Type} (s : FakeStore Service) (c : Channel St) :
    Except StoreErr Service × FakeStore Service :=
  createK8sService s
    { ns := c.metadata.ns, name := ChannelServiceName c.metadata.name }
    (newK8sService c)

/-- Go `func getVirtualService`: fetch the live VirtualService at the
routing key of the channel. -/
def getVirtualService {St : Type} (s : FakeStore VirtualService) (c : Channel St) :
    Except StoreErr VirtualService × FakeStore VirtualService :=
  let _ := ChannelVirtualServiceName c.metadata.name
  s.get

/-- Go `func CreateVirtualService`: fetch the live VirtualService; on
NotFound create the desired one and return it (or the create error
unmodified); on any other fetch error return it unmodified; otherwise if
the desired spec is not derivative-equal to the live spec, overwrite the
spec of the live object and issue one Update. -/
def CreateVirtualService {St : Type} (s : FakeStore VirtualService)
    (channel : Channel St) :
    Except StoreErr VirtualService × FakeStore VirtualService :=
  let (res, s) := getVirtualService s channel
  match res with
  | .error .notFound =>
    let virtualService := newVirtualService channel
    let (e, s) := s.create virtualService
    match e with
    | some err => (.error err, s)
    | none => (.ok virtualService, s)
  | .error e => (.error e, s)
  | .ok virtualService =>
    let expected := newVirtualService channel
    if vsSpecDerivative expected.spec virtualService.spec then
      (.ok virtualService, s)
    else
      let virtualService := { virtualService with spec := expected.spec }
      let (e, s) := s.update virtualService
      match e with
      | some err => (.error err, s)
      | none => (.ok virtualService, s)

/-- Go `func UpdateChannel`: fetch the live Channel by the identity of the desired
channel (any fetch error, NotFound included, is returned); copy
the desired finalizers onto the live object if they differ by deep
equality, likewise the status; if either differed issue one Update of the
live object, else return nil without writing. Returns the Go `error` as
`Option StoreErr`. -/
def UpdateChannel {St : Type} [DecidableEq St] (s : FakeStore (Channel St))
    (u : Channel St) : Option StoreErr × FakeStore (Channel St) :=
  let (res, s) := s.get
  match res with
  | .error e => (some e, s)
  | .ok channel =>
    let (channel, updated) :=
      if channel.metadata.finalizers = u.metadata.finalizers then
        (channel, false)
      else
        ({ channel with metadata :=
            { channel.metadata with finalizers := u.metadata.finalizers } }, true)
    let (channel, updated) :=
      if channel.status = u.status then
        (channel, updated)
      else
        ({ channel with status := u.status }, true)
    if updated then
      s.update channel
    else
      (none, s)

/-- The per-route destination lists of a VirtualService (the projection
claim C8 is about). -/
def vsRouteDestinations (vs : VirtualService) : List (List Destination) :=
  vs.spec.http.map (fun r => r.route.map (fun w => w.destination))

/-- A concrete channel with finalizer list `["a"]`, the starting point of
claim C6. -/
def c6Channel : Channel String :=
  { metadata :=
      { name := "orders", ns := "ns1", labels := [], ownerReferences := []
        finalizers := ["a"] }
    spec := { provisioner := { name := "kafka" } }
    status := "" }

/-- A concrete channel whose finalizer list `["b", "a"]` is not in the
normalized (sorted) order, exhibiting that `RemoveFinalizer` of an absent
name re-sorts the list. -/
def c7Channel : Channel String :=
  { metadata :=
      { name := "orders", ns := "ns1", labels := [], ownerReferences := []
        finalizers := ["b", "a"] }
    spec := { provisioner := { name := "kafka" } }
    status := "" }

/-- C6: starting from a channel with finalizers `["a"]`, `AddFinalizer _ "x"`
yields the sorted list `["a", "x"]` and reports `FinalizerAdded`; a second
`AddFinalizer _ "x"` reports `FinalizerAlreadyPresent` and returns the
channel unchanged; `RemoveFinalizer _ "a"` then yields `["x"]`. -/
theorem addFinalizer_removeFinalizer_lifecycle :
    (AddFinalizer c6Channel "x").1.metadata.finalizers = ["a", "x"] ∧
    (AddFinalizer c6Channel "x").2 = FinalizerAdded ∧
    (AddFinalizer (AddFinalizer c6Channel "x").1 "x").2 = FinalizerAlreadyPresent ∧
    (AddFinalizer (AddFinalizer c6Channel "x").1 "x").1 = (AddFinalizer c6Channel "x").1 ∧
    (RemoveFinalizer (AddFinalizer c6Channel "x").1 "a").metadata.finalizers = ["x"] := by
  decide

/-- C7 counterexample: on the channel with (unsorted) finalizers
`["b", "a"]`, removing the absent name `"z"` is not a no-op — the list
comes back normalized as `["a", "b"]`. -/
theorem removeFinalizer_absent_not_noop :
    "z" ∉ c7Channel.metadata.finalizers ∧
    (RemoveFinalizer c7Channel "z").metadata.finalizers ≠
      c7Channel.metadata.finalizers := by
  decide

/-- C7 amended: removing an absent name leaves the finalizer list equal to
the normalization (sorted member list of the string set) of the input
list; in particular the list is unchanged whenever it was already in
normalized form. -/
theorem removeFinalizer_absent_normalizes {St : Type} (c : Channel St)
    (nm : String) (h : nm ∉ c.metadata.finalizers) :
    (RemoveFinalizer c nm).metadata.finalizers =
      setsStringList c.metadata.finalizers ∧
    (c.metadata.finalizers = setsStringList c.metadata.finalizers →
      (RemoveFinalizer c nm).metadata.finalizers = c.metadata.finalizers) := by
  have hfilter : c.metadata.finalizers.filter (fun s => s != nm) =
      c.metadata.finalizers := by
    apply List.filter_eq_self.mpr
    intro a ha
    exact bne_iff_ne.mpr (fun hEq => h (hEq ▸ ha))
  constructor
  · simp [RemoveFinalizer, hfilter]
  · intro hnorm
    simp [RemoveFinalizer, hfilter, ← hnorm]

/-- Witness for the amended C7 theorem at a concrete input: the channel with
already-normalized finalizers `["a"]` and the absent name `"z"`. -/
theorem removeFinalizer_absent_normalizes_witness :
    "z" ∉ c6Channel.metadata.finalizers ∧
    (RemoveFinalizer c6Channel "z").metadata.finalizers =
      setsStringList c6Channel.metadata.finalizers :=
  ⟨by decide, (removeFinalizer_absent_normalizes c6Channel "z" (by decide)).1⟩

/-- C10: `ChannelServiceName` and `ChannelVirtualServiceName` agree on
every input, both returning the input followed by the suffix
`"-channel"`. -/
theorem channelServiceName_eq_channelVirtualServiceName (s : String) :
    ChannelServiceName s = s ++ "-channel" ∧
    ChannelVirtualServiceName s = s ++ "-channel" ∧
    ChannelServiceName s = ChannelVirtualServiceName s :=
  ⟨rfl, rfl, rfl⟩

/-- C9: the naming functions are pure and deterministic (repeated
application yields the same string); `ChannelHostName name namespace`
contains both the name and the namespace as substrings; distinct
namespaces yield distinct hostnames for a fixed name; and concretely
`ChannelHostName "orders" "ns1" = "orders.ns1.channels.cluster.local"`. -/
theorem channelHostName_naming_facts :
    ChannelHostName "orders" "ns1" = "orders.ns1.channels.cluster.local" ∧
    (∀ n nsp : String,
      ChannelHostName n nsp = ChannelHostName n nsp ∧
      ChannelServiceName n = ChannelServiceName n ∧
      ChannelVirtualServiceName n = ChannelVirtualServiceName n) ∧
    (∀ n nsp : String,
      n.data <:+: (ChannelHostName n nsp).data ∧
      nsp.data <:+: (ChannelHostName n nsp).data) ∧
    (∀ n ns1 ns2 : String,
      ns1 ≠ ns2 → ChannelHostName n ns1 ≠ ChannelHostName n ns2) := by
  refine ⟨by decide, fun n nsp => ⟨rfl, rfl, rfl⟩, fun n nsp => ⟨?_, ?_⟩, ?_⟩
  · have hd : (ChannelHostName n nsp).data =
        n.data ++ ("." ++ nsp ++ ".channels.cluster.local").data := by
      simp [ChannelHostName, String.data_append]
    rw [hd]
    simpa using
      List.infix_append [] n.data ("." ++ nsp ++ ".channels.cluster.local").data
  · have hd : (ChannelHostName n nsp).data =
        (n.data ++ ".".data) ++ nsp.data ++ ".channels.cluster.local".data := by
      simp [ChannelHostName, String.data_append]
    rw [hd]
    exact List.infix_append _ _ _
  · intro n ns1 ns2 hne heq
    apply hne
    have hd := congrArg String.data heq
    simp only [ChannelHostName, String.data_append, List.append_assoc] at hd
    exact String.ext
      (List.append_cancel_right
        (List.append_cancel_left (List.append_cancel_left hd)))

/-- Witness for the hypothesis-bearing conjunct of C9 at concrete inputs:
`"ns1" ≠ "ns2"`, and the hostnames of `"orders"` in those two namespaces
differ. -/
theorem channelHostName_naming_facts_witness :
    "ns1" ≠ "ns2" ∧
    ChannelHostName "orders" "ns1" ≠ ChannelHostName "orders" "ns2" :=
  ⟨by decide, channelHostName_naming_facts.2.2.2 "orders" "ns1" "ns2" (by decide)⟩

/-- C8: the route destinations of the desired VirtualService are a pure
function of the provisioner name of the channel alone — two channels with equal
provisioner names get identical route destinations, whatever their names,
namespaces, statuses or any other field. -/
theorem newVirtualService_destination_provisioner_pure {St St' : Type}
    (c1 : Channel St) (c2 : Channel St')
    (h : c1.spec.provisioner.name = c2.spec.provisioner.name) :
    vsRouteDestinations (newVirtualService c1) =
      vsRouteDestinations (newVirtualService c2) := by
  simp [vsRouteDestinations, newVirtualService, h]

/-- Witness for C8 at concrete inputs: two channels sharing the
provisioner `"kafka"` but differing in name, namespace and status have
identical route destinations. -/
theorem newVirtualService_destination_provisioner_pure_witness :
    ({ metadata := { name := "orders", ns := "ns1", labels := []
                     ownerReferences := [], finalizers := [] }
       spec := { provisioner := { name := "kafka" } }
       status := "a" } : Channel String).spec.provisioner.name =
      ({ metadata := { name := "payments", ns := "ns2", labels := [("x", "y")]
                       ownerReferences := [], finalizers := ["f"] }
         spec := { provisioner := { name := "kafka" } }
         status := "b" } : Channel String).spec.provisioner.name ∧
    vsRouteDestinations (newVirtualService
      ({ metadata := { name := "orders", ns := "ns1", labels := []
                       ownerReferences := [], finalizers := [] }
         spec := { provisioner := { name := "kafka" } }
         status := "a" } : Channel String)) =
      vsRouteDestinations (newVirtualService
        ({ metadata := { name := "payments", ns := "ns2", labels := [("x", "y")]
                         ownerReferences := [], finalizers := ["f"] }
           spec := { provisioner := { name := "kafka" } }
           status := "b" } : Channel String)) :=
  ⟨rfl, newVirtualService_destination_provisioner_pure _ _ rfl⟩

/-- A concrete live Service whose single port has drifted from the desired
port 80, with a cluster-assigned ClusterIP, used as the C1 witness. -/
def driftedService : Service :=
  { metadata :=
      { name := "orders-channel", ns := "ns1", labels := []
        ownerReferences := [], finalizers := [] }
    spec :=
      { ports := [{ name := "http", protocol := "TCP", port := 8080 }]
        clusterIP := "10.0.0.1" } }

/-- C1: when the live Service exists and the port number of its single port
differs from the fixed desired 80, `CreateK8sService` records exactly one
Update and no Create; the updated object is the live object with its spec
overwritten by the desired one — port list `[{name "http", port 80}]` and
ClusterIP equal to the ClusterIP of the live object (copied, never
overwritten) — and that object is also the returned Service. -/
theorem createK8sService_drift_corrected {St : Type} (c : Channel St)
    (cur : Service) (p : ServicePort)
    (hports : cur.spec.ports = [p]) (hport : p.port ≠ 80) :
    (CreateK8sService (FakeStore.ofLive (some cur)) c).2.updates =
      [{ cur with spec :=
          { ports := [{ name := "http", protocol := "", port := 80 }]
            clusterIP := cur.spec.clusterIP } }] ∧
    (CreateK8sService (FakeStore.ofLive (some cur)) c).2.creates = [] ∧
    (CreateK8sService (FakeStore.ofLive (some cur)) c).1 =
      .ok { cur with spec :=
          { ports := [{ name := "http", protocol := "", port := 80 }]
            clusterIP := cur.spec.clusterIP } } := by
  have h80 : ((80 : Int) == p.port) = false :=
    beq_eq_false_iff_ne.mpr (Ne.symm hport)
  simp [CreateK8sService, createK8sService, FakeStore.ofLive, FakeStore.get,
    FakeStore.update, newK8sService, serviceSpecDerivative, portsDerivative,
    portDerivative, PortName, PortNumber, hports, h80]

/-- Witness for C1 at a concrete input: channel `c6Channel` against
the drifted live Service `driftedService`. -/
theorem createK8sService_drift_corrected_witness :
    driftedService.spec.ports =
      [{ name := "http", protocol := "TCP", port := 8080 }] ∧
    ({ name := "http", protocol := "TCP", port := 8080 } : ServicePort).port ≠ 80 ∧
    ((CreateK8sService (FakeStore.ofLive (some driftedService)) c6Channel).2.updates =
      [{ driftedService with spec :=
          { ports := [{ name := "http", protocol := "", port := 80 }]
            clusterIP := driftedService.spec.clusterIP } }] ∧
     (CreateK8sService (FakeStore.ofLive (some driftedService)) c6Channel).2.creates = [] ∧
     (CreateK8sService (FakeStore.ofLive (some driftedService)) c6Channel).1 =
      .ok { driftedService with spec :=
          { ports := [{ name := "http", protocol := "", port := 80 }]
            clusterIP := driftedService.spec.clusterIP } }) :=
  ⟨rfl, by decide,
   createK8sService_drift_corrected c6Channel driftedService
     { name := "http", protocol := "TCP", port := 8080 } rfl (by decide)⟩

/-- C2: when Get signals NotFound and the subsequent Create fails with any
error `e`, both `CreateK8sService` and `CreateVirtualService` return
exactly that error with no resource (`.error e` models the Go pair with nil resource),
having made exactly one Get and one Create and no Update — no second
fetch, no silent success. -/
theorem create_failure_returned_unmodified {St : Type} (c : Channel St)
    (e : StoreErr) :
    ((CreateK8sService { FakeStore.ofLive none with createErr := some e } c).1 =
        .error e ∧
      (CreateK8sService { FakeStore.ofLive none with createErr := some e } c).2.gets = 1 ∧
      (CreateK8sService { FakeStore.ofLive none with createErr := some e } c).2.creates =
        [newK8sService c] ∧
      (CreateK8sService { FakeStore.ofLive none with createErr := some e } c).2.updates = []) ∧
    ((CreateVirtualService { FakeStore.ofLive none with createErr := some e } c).1 =
        .error e ∧
      (CreateVirtualService { FakeStore.ofLive none with createErr := some e } c).2.gets = 1 ∧
      (CreateVirtualService { FakeStore.ofLive none with createErr := some e } c).2.creates =
        [newVirtualService c] ∧
      (CreateVirtualService { FakeStore.ofLive none with createErr := some e } c).2.updates = []) := by
  simp [CreateK8sService, createK8sService, CreateVirtualService,
    getVirtualService, FakeStore.ofLive, FakeStore.get, FakeStore.create]

/-- C3: starting from a store with no child resource and no injected
failures, running `CreateK8sService` twice in succession (and likewise
`CreateVirtualService`) records exactly one Create and zero Updates: the
second call finds the live object derivative-equal to the desired one and
performs no write. -/
theorem ensure_twice_one_create_zero_updates {St : Type} (c : Channel St) :
    ((CreateK8sService (CreateK8sService (FakeStore.ofLive none) c).2 c).2.creates =
        [newK8sService c] ∧
      (CreateK8sService (CreateK8sService (FakeStore.ofLive none) c).2 c).2.updates = []) ∧
    ((CreateVirtualService (CreateVirtualService (FakeStore.ofLive none) c).2 c).2.creates =
        [newVirtualService c] ∧
      (CreateVirtualService (CreateVirtualService (FakeStore.ofLive none) c).2 c).2.updates = []) := by
  simp [CreateK8sService, createK8sService, CreateVirtualService,
    getVirtualService, FakeStore.ofLive, FakeStore.get, FakeStore.create,
    newK8sService, newVirtualService, serviceSpecDerivative, portsDerivative,
    portDerivative, vsSpecDerivative, hostsDerivative, httpDerivative,
    httpRouteDerivative, routeDerivative, destinationDerivative,
    PortName, PortNumber]

/-- C4: when the finalizers and status of the desired channel both equal those
of the freshly fetched live channel, `UpdateChannel` returns nil, records
no Update, and leaves the live channel unchanged in the store. -/
theorem updateChannel_no_diff_no_write {St : Type} [DecidableEq St]
    (live u : Channel St)
    (hfin : live.metadata.finalizers = u.metadata.finalizers)
    (hst : live.status = u.status) :
    (UpdateChannel (FakeStore.ofLive (some live)) u).1 = none ∧
    (UpdateChannel (FakeStore.ofLive (some live)) u).2.updates = [] ∧
    (UpdateChannel (FakeStore.ofLive (some live)) u).2.live = some live := by
  simp [UpdateChannel, FakeStore.ofLive, FakeStore.get, hfin, hst]

/-- A concrete live channel for the C4/C5 witnesses. -/
def liveChannel : Channel String :=
  { metadata :=
      { name := "orders", ns := "ns1", labels := [], ownerReferences := []
        finalizers := ["f"] }
    spec := { provisioner := { name := "kafka" } }
    status := "ready" }

/-- A desired channel agreeing with `liveChannel` on finalizers and status
but stale on other metadata, for the C4 witness. -/
def desiredSame : Channel String :=
  { liveChannel with metadata := { liveChannel.metadata with labels := [("stale", "1")] } }

/-- Witness for C4 at a concrete input: `liveChannel` against
`desiredSame`, whose finalizers and status match. -/
theorem updateChannel_no_diff_no_write_witness :
    liveChannel.metadata.finalizers = desiredSame.metadata.finalizers ∧
    liveChannel.status = desiredSame.status ∧
    ((UpdateChannel (FakeStore.ofLive (some liveChannel)) desiredSame).1 = none ∧
     (UpdateChannel (FakeStore.ofLive (some liveChannel)) desiredSame).2.updates = [] ∧
     (UpdateChannel (FakeStore.ofLive (some liveChannel)) desiredSame).2.live =
       some liveChannel) :=
  ⟨rfl, rfl, updateChannel_no_diff_no_write liveChannel desiredSame rfl rfl⟩

/-- C5: when the finalizers or status of the desired channel differ from
those of the freshly fetched live channel, `UpdateChannel` records exactly one
Update, and its object is the live channel with only its finalizers and
status replaced by the desired ones — every other field keeps the freshly
fetched live value, never a possibly-stale value from the caller. -/
theorem updateChannel_diff_single_update {St : Type} [DecidableEq St]
    (live u : Channel St)
    (h : ¬ (live.metadata.finalizers = u.metadata.finalizers ∧
            live.status = u.status)) :
    (UpdateChannel (FakeStore.ofLive (some live)) u).2.updates =
      [{ live with
          metadata := { live.metadata with finalizers := u.metadata.finalizers }
          status := u.status }] := by
  by_cases hfin : live.metadata.finalizers = u.metadata.finalizers
  · have hst : ¬ live.status = u.status := fun hst => h ⟨hfin, hst⟩
    simp [UpdateChannel, FakeStore.ofLive, FakeStore.get, FakeStore.update,
      hfin, hst]
    rw [← hfin]
  · by_cases hst : live.status = u.status
    · simp [UpdateChannel, FakeStore.ofLive, FakeStore.get, FakeStore.update,
        hfin, hst]
    · simp [UpdateChannel, FakeStore.ofLive, FakeStore.get, FakeStore.update,
        hfin, hst]

/-- A desired channel differing from `liveChannel` in both finalizers and
status, and stale in name, for the C5 witness. -/
def desiredDiff : Channel String :=
  { metadata :=
      { name := "stale-name", ns := "ns1", labels := [("stale", "1")]
        ownerReferences := [], finalizers := ["f", "g"] }
    spec := { provisioner := { name := "kafka" } }
    status := "provisioned" }

/-- Witness for C5 at a concrete input: `liveChannel` against
`desiredDiff`; the single recorded Update keeps the live name and labels
and takes only finalizers and status from the desired channel. -/
theorem updateChannel_diff_single_update_witness :
    (¬ (liveChannel.metadata.finalizers = desiredDiff.metadata.finalizers ∧
        liveChannel.status = desiredDiff.status)) ∧
    (UpdateChannel (FakeStore.ofLive (some liveChannel)) desiredDiff).2.updates =
      [{ liveChannel with
          metadata := { liveChannel.metadata with
                        finalizers := desiredDiff.metadata.finalizers }
          status := desiredDiff.status }] :=
  ⟨by decide,
   updateChannel_diff_single_update liveChannel desiredDiff (by decide)⟩

end Provisioners
